import Mathlib

/-
Verification of the gin-starter response-unification layer:
a shallow embedding of src/ginmodule/wrapper.go and the status-code /
recovery middlewares, with theorems about the behaviour of each part.
Handler and middleware interactions with the engine context are modelled
as traces of effects; the deferred-status writer is modelled as an
explicit state machine over the underlying engine writer.
-/

namespace GinStarter

/-- Domain status codes (the StatusCode constants referenced by the repository). -/
inductive StatusCode
  | StatusCodeSuccess
  | StatusCodeException
  | StatusCodeBadRequestParameters
  | StatusCodeForbidden
  | StatusCodeNotFound
  | StatusCodeMethodNotAllowed
  | StatusCodeMediaTypeNotAllowed
  | StatusCodeUploadLimitExceeded
  deriving DecidableEq, Repr

/-- ResponseHeader from wrapper.go: a name and a value (empty value clears the header). -/
structure ResponseHeader where
  name : String
  value : String
  deriving DecidableEq, Repr

/-- ResponseCookie from wrapper.go. -/
structure ResponseCookie where
  name : String
  value : String
  maxAge : Int
  path : String
  domain : String
  secure : Bool
  httpOnly : Bool
  deriving DecidableEq, Repr

/-- ResponseData from wrapper.go: body bytes, content type, status code, headers, cookies. -/
structure ResponseData where
  data : List Nat
  contentType : String
  statusCode : Int
  headers : List ResponseHeader
  cookies : List ResponseCookie
  deriving DecidableEq, Repr

/-- One operation performed against the gin context while writing a response. -/
inductive Effect
  | setCookie (cookie : ResponseCookie)
  | setHeader (name : String) (value : String)
  | writeData (statusCode : Int) (contentType : String) (payload : List Nat)
  | setStatus (statusCode : Int)
  | redirect (statusCode : Int) (url : String)
  | logWarn (message : String)
  deriving DecidableEq, Repr

/-- A raw gin callback (the ginFn field of commonResp), modelled by the
trace of effects it performs against the context. -/
abbrev GinFn := List Effect

/-- The Response interface with its two variants from the repository:
commonResp (optionally carrying a raw gin callback) and restResp. -/
inductive Response
  | commonResp (ginFn : Option GinFn) (responseData : Option ResponseData)
  | restResp (responseData : Option ResponseData)
  deriving DecidableEq, Repr

/-- The Data method of the Response interface: both variants return their
responseData field. -/
def Response.Data : Response → Option ResponseData
  | .commonResp _ rd => rd
  | .restResp rd => rd

/-- gin.MIMEJSON. -/
def MIMEJSON : String := "application/json"

/-- The cookie loop of httpResponse: one SetCookie call per cookie, in order. -/
def cookieEffects (cookies : List ResponseCookie) : List Effect :=
  cookies.map Effect.setCookie

/-- The header loop of httpResponse: one Header call per header, in order. -/
def headerEffects (headers : List ResponseHeader) : List Effect :=
  headers.map fun h => Effect.setHeader h.name h.value

/-- httpResponse from wrapper.go: if the response is a commonResp with a
non-nil ginFn, run the callback and return; otherwise take Data, return if
nil, default the content type to MIMEJSON and the status code to 200, then
apply cookies, then headers, then the body (only when body bytes are
non-empty). -/
def httpResponse (response : Response) : List Effect :=
  match response with
  | Response.commonResp (some fn) _ => fn
  | _ =>
    match response.Data with
    | none => []
    | some responseData =>
      let contentType := if responseData.contentType = "" then MIMEJSON else responseData.contentType
      let httpStatusCode := if responseData.statusCode = 0 then 200 else responseData.statusCode
      let cookieEffs := if responseData.cookies.length > 0 then cookieEffects responseData.cookies else []
      let headerEffs := if responseData.headers.length > 0 then headerEffects responseData.headers else []
      let bodyEffs :=
        if responseData.data.length > 0 then
          [Effect.writeData httpStatusCode contentType responseData.data]
        else []
      cookieEffs ++ headerEffs ++ bodyEffs

/-- Modelled from the spec: the canonical envelope carried by structured
responses, with a status, a message and an optional payload (the
RestRespStruct type is not part of src). -/
structure RestRespStruct where
  status : StatusCode
  message : String
  data : Option String
  deriving DecidableEq, Repr

/-- An injective index for domain status codes, used by the modelled encoder. -/
def StatusCode.idx : StatusCode → Nat
  | .StatusCodeSuccess => 0
  | .StatusCodeException => 1
  | .StatusCodeBadRequestParameters => 2
  | .StatusCodeForbidden => 3
  | .StatusCodeNotFound => 4
  | .StatusCodeMethodNotAllowed => 5
  | .StatusCodeMediaTypeNotAllowed => 6
  | .StatusCodeUploadLimitExceeded => 7

/-- Modelled from the spec: the default body encoder (an external JSON
library in the source), modelled as an injective encoding of the envelope
into a non-empty byte list. -/
def encodeEnvelope (r : RestRespStruct) : List Nat :=
  r.status.idx :: (r.message.toList.map Char.toNat)

/-- The ResponseData prepared by NewRespRest: empty body, MIMEJSON content
type, unset status code, no headers, no cookies. -/
def NewRespRestData : ResponseData :=
  ⟨[], MIMEJSON, 0, [], []⟩

/-- Modelled from the spec: NewRestException (not in src) builds the
envelope with the generic exception status and an optional message. -/
def NewRestException (statusMessage : List String) : RestRespStruct :=
  ⟨StatusCode.StatusCodeException, statusMessage.headD "", none⟩

/-- Modelled from the spec: NewRestStatusError (not in src) builds the
envelope carrying the given domain status and an optional message. -/
def NewRestStatusError (statusCode : StatusCode) (statusMessage : List String) : RestRespStruct :=
  ⟨statusCode, statusMessage.headD "", none⟩

/-- RespRestException: a restResp whose body is the encoded exception envelope. -/
def RespRestException (statusMessage : List String) : Response :=
  Response.restResp (some { NewRespRestData with data := encodeEnvelope (NewRestException statusMessage) })

/-- RespRestStatusError: a restResp whose body is the encoded envelope for
the given domain status. -/
def RespRestStatusError (statusCode : StatusCode) (statusMessage : List String) : Response :=
  Response.restResp (some { NewRespRestData with data := encodeEnvelope (NewRestStatusError statusCode statusMessage) })

/-- The Status Registry seeded by the init function, in insertion order. -/
def httpCodeWithStatus : List (Int × StatusCode) :=
  [(400, StatusCode.StatusCodeBadRequestParameters),
   (403, StatusCode.StatusCodeForbidden),
   (404, StatusCode.StatusCodeNotFound),
   (405, StatusCode.StatusCodeMethodNotAllowed),
   (415, StatusCode.StatusCodeMediaTypeNotAllowed),
   (413, StatusCode.StatusCodeUploadLimitExceeded),
   (401, StatusCode.StatusCodeForbidden)]

/-- Map lookup over the registry association list (all keys are distinct). -/
def lookupCode : List (Int × StatusCode) → Int → Option StatusCode
  | [], _ => none
  | (k, v) :: rest, code => if k = code then some v else lookupCode rest code

/-- defaultHttpStatusCodeHandlerResponse: look the transport code up in the
registry, fall back to the generic exception status when absent. -/
def defaultHttpStatusCodeHandlerResponse (httpStatusCode : Int) : Response :=
  match lookupCode httpCodeWithStatus httpStatusCode with
  | none => RespRestStatusError StatusCode.StatusCodeException []
  | some v => RespRestStatusError v []

/-- Go error values, abstracted as strings. -/
abbrev GoError := String

/-- A recovered panic value: a Go error promoted by panic(err), a runtime
error, or any other value. -/
inductive PanicValue
  | goError (err : GoError)
  | runtimeError (message : String)
  | other (value : Nat)
  deriving DecidableEq, Repr

/-- The RecoverHandlerResponse resolver type: from the recovered value to an
optional Response (nil allowed). The request context argument is elided. -/
abbrev RecoverHandlerResponse := PanicValue → Option Response

/-- defaultRecoverHandlerResponse: log the failure and return RespRestException. -/
def defaultRecoverHandlerResponse : RecoverHandlerResponse :=
  fun _ => some (RespRestException [])

/-- RecoverHandler: runs the chain; when the chain panicked, invoke the
resolver on the recovered value and, when it returns a non-nil Response,
write it via httpResponse after the effects the chain already performed;
when the resolver returns nil, write nothing further. -/
def RecoverHandler (resolver : RecoverHandlerResponse)
    (chain : List Effect × Option PanicValue) : List Effect :=
  match chain.2 with
  | none => chain.1
  | some r =>
    match resolver r with
    | some response => chain.1 ++ httpResponse response
    | none => chain.1

/-- The outcome of invoking a route handler: a normal return of
(Response, error), or a panic raised inside the handler. -/
inductive HandlerOutcome
  | returns (response : Option Response) (err : Option GoError)
  | panics (value : PanicValue)
  deriving DecidableEq, Repr

/-- The closure built by RouterWrapper.handler: when the context is aborted,
log and return; when the handler returns a non-nil error, panic with it;
when the response is non-nil, write it via httpResponse; otherwise write a
bare 200 status. Returns the effects performed and the escaping panic. -/
def handlerInvoke (isAborted : Bool) (outcome : HandlerOutcome) :
    List Effect × Option PanicValue :=
  if isAborted then ([Effect.logWarn "Request is aborted"], none)
  else
    match outcome with
    | .panics v => ([], some v)
    | .returns _ (some err) => ([], some (PanicValue.goError err))
    | .returns (some response) none => (httpResponse response, none)
    | .returns none none => ([Effect.setStatus 200], none)

/-- The outcome of one global middleware for a fixed request: the Response
it returned and its continue flag. -/
structure MiddlewareOutcome where
  response : Option Response
  continued : Bool
  deriving DecidableEq, Repr

/-- The global middleware chain installed by GinStarter.Start: each
middleware either continues to the next, or short-circuits by writing its
Response via httpResponse and aborting; a nil Response at a short-circuit
makes httpResponse dereference a nil interface, which panics. -/
def runMiddlewares : List MiddlewareOutcome → (List Effect × Option PanicValue) →
    List Effect × Option PanicValue
  | [], handlerResult => handlerResult
  | m :: rest, handlerResult =>
    if m.continued then runMiddlewares rest handlerResult
    else
      match m.response with
      | some response => (httpResponse response, none)
      | none => ([], some (PanicValue.runtimeError "nil pointer dereference"))

/-- The body bytes delivered by a trace of effects. -/
def writtenBody : List Effect → List Nat
  | [] => []
  | Effect.writeData _ _ payload :: rest => payload ++ writtenBody rest
  | _ :: rest => writtenBody rest

/-- The status code an effect writes through the writer, when any. -/
def statusOf : Effect → Option Int
  | Effect.writeData code _ _ => some code
  | Effect.setStatus code => some code
  | _ => none

/-- The content type an effect writes, when any. -/
def contentTypeOf : Effect → Option String
  | Effect.writeData _ ct _ => some ct
  | _ => none

/-- A call observed by the underlying engine writer. -/
inductive WriterEvent
  | writeHeader (statusCode : Int)
  | write (payload : List Nat)
  deriving DecidableEq, Repr

/-- The underlying gin ResponseWriter: whether the header was committed, and
the trace of calls that reached it. -/
structure EngineWriter where
  committed : Bool
  events : List WriterEvent
  deriving DecidableEq, Repr

/-- A WriteHeader call reaching the underlying writer commits the header. -/
def EngineWriter.writeHeader (w : EngineWriter) (statusCode : Int) : EngineWriter :=
  ⟨true, w.events ++ [WriterEvent.writeHeader statusCode]⟩

/-- A Write call reaching the underlying writer commits and writes the body. -/
def EngineWriter.write (w : EngineWriter) (payload : List Nat) : EngineWriter :=
  ⟨true, w.events ++ [WriterEvent.write payload]⟩

/-- responseStatusRewriter from wrapper.go: the wrapped writer plus the
buffered status code. -/
structure ResponseStatusRewriter where
  responseWriter : EngineWriter
  statusCode : Int
  deriving DecidableEq, Repr

/-- WriteHeader on the rewriter only buffers the code in memory. -/
def ResponseStatusRewriter.WriteHeader (r : ResponseStatusRewriter) (code : Int) :
    ResponseStatusRewriter :=
  { r with statusCode := code }

/-- Written delegates to the underlying writer committed flag. -/
def ResponseStatusRewriter.Written (r : ResponseStatusRewriter) : Bool :=
  r.responseWriter.committed

/-- Write on the rewriter: commit the buffered status first when nothing was
committed yet, then pass the body through. -/
def ResponseStatusRewriter.Write (r : ResponseStatusRewriter) (payload : List Nat) :
    ResponseStatusRewriter :=
  let r1 := if r.Written then r else { r with responseWriter := r.responseWriter.writeHeader r.statusCode }
  { r1 with responseWriter := r1.responseWriter.write payload }

/-- WriteHeaderNow on the rewriter: commit the buffered status when nothing
was committed yet. -/
def ResponseStatusRewriter.WriteHeaderNow (r : ResponseStatusRewriter) :
    ResponseStatusRewriter :=
  if r.Written then r else { r with responseWriter := r.responseWriter.writeHeader r.statusCode }

/-- Status on the rewriter returns the buffered status code. -/
def ResponseStatusRewriter.Status (r : ResponseStatusRewriter) : Int :=
  r.statusCode

/-- RewriteHttpStatusCodeHandler installs the rewriter around the engine
writer with the default buffered value 404. -/
def RewriteHttpStatusCodeHandler (w : EngineWriter) : ResponseStatusRewriter :=
  ⟨w, 404⟩

/-- The statement after Next in RewriteHttpStatusCodeHandler: WriteHeader on
the rewriter with its own buffered status (a buffer-only operation). -/
def rewriteHandlerAfterNext (r : ResponseStatusRewriter) : ResponseStatusRewriter :=
  r.WriteHeader r.statusCode

/-- One call against the rewriter during chain execution. -/
inductive RewriterOp
  | writeHeader (code : Int)
  | write (payload : List Nat)
  | writeHeaderNow
  | status
  deriving DecidableEq, Repr

/-- Apply one rewriter call to the rewriter state (Status is a pure read). -/
def applyOp (r : ResponseStatusRewriter) : RewriterOp → ResponseStatusRewriter
  | RewriterOp.writeHeader code => r.WriteHeader code
  | RewriterOp.write payload => r.Write payload
  | RewriterOp.writeHeaderNow => r.WriteHeaderNow
  | RewriterOp.status => r

/-- Apply a sequence of rewriter calls in order. -/
def applyOps (r : ResponseStatusRewriter) (ops : List RewriterOp) : ResponseStatusRewriter :=
  ops.foldl applyOp r

/-- Whether a rewriter call is one of the two commit triggers: a body write
or an explicit WriteHeaderNow. -/
def RewriterOp.isCommitTrigger : RewriterOp → Bool
  | RewriterOp.write _ => true
  | RewriterOp.writeHeaderNow => true
  | _ => false

/-- How the effects of httpResponse reach the rewriter: context.Data buffers
the status then writes the body, context.Status buffers the status; header,
cookie and log operations do not touch the status path. -/
def applyEffectRW (r : ResponseStatusRewriter) : Effect → ResponseStatusRewriter
  | Effect.writeData code _ payload => (r.WriteHeader code).Write payload
  | Effect.setStatus code => r.WriteHeader code
  | _ => r

/-- Apply a trace of effects to the rewriter in order. -/
def applyEffectsRW (r : ResponseStatusRewriter) (effs : List Effect) : ResponseStatusRewriter :=
  effs.foldl applyEffectRW r

/-- HttpStatusCodeHandler, the part after Next: read the buffered status; if
it differs from 200, buffer 200 and write the registry envelope for the
read status via httpResponse; otherwise leave everything unchanged. -/
def HttpStatusCodeHandler (r : ResponseStatusRewriter) : ResponseStatusRewriter :=
  let statusCode := r.Status
  if statusCode ≠ 200 then
    let r1 := r.WriteHeader 200
    applyEffectsRW r1 (httpResponse (defaultHttpStatusCodeHandlerResponse statusCode))
  else r

/-- Modelled from the spec: badHttpCodeResolver of the ginstarter package is
not in src; per the spec, when the buffered status equals 200 or appears in
the configured ignore-list the response passes through unchanged, otherwise
the transport status is forced to 200 and the registry envelope for the
buffered status is written. -/
def badHttpCodeResolver (ignoreHttpCode : List Int) (r : ResponseStatusRewriter) :
    ResponseStatusRewriter :=
  let statusCode := r.Status
  if statusCode = 200 ∨ statusCode ∈ ignoreHttpCode then r
  else
    let r1 := r.WriteHeader 200
    applyEffectsRW r1 (httpResponse (defaultHttpStatusCodeHandlerResponse statusCode))

/-- The gin callback built by RespRedirect: default the status to 301 when
none is supplied; when one is supplied, warn when it is below 300 and above
308, then redirect with the supplied code. -/
def respRedirectGinFn (url : String) (httpStatusCode : List Int) : GinFn :=
  match httpStatusCode with
  | [] => [Effect.redirect 301 url]
  | statusCode :: _ =>
    (if statusCode < 300 ∧ statusCode > 308
      then [Effect.logWarn "Bad redirect status code"]
      else [])
      ++ [Effect.redirect statusCode url]

/-- RespRedirect: a commonResp carrying only the redirect callback. -/
def RespRedirect (url : String) (httpStatusCode : List Int) : Response :=
  Response.commonResp (some (respRedirectGinFn url httpStatusCode)) none

/- ------------------------------------------------------------------ -/
/- Helper lemmas                                                      -/
/- ------------------------------------------------------------------ -/

/-- The guard on the cookie loop is redundant: an empty list contributes
no effects either way. -/
theorem guarded_cookieEffects (cookies : List ResponseCookie) :
    (if cookies.length > 0 then cookieEffects cookies else []) = cookieEffects cookies := by
  cases cookies <;> simp [cookieEffects]

/-- The guard on the header loop is redundant: an empty list contributes
no effects either way. -/
theorem guarded_headerEffects (headers : List ResponseHeader) :
    (if headers.length > 0 then headerEffects headers else []) = headerEffects headers := by
  cases headers <;> simp [headerEffects]

/-- Writing a restResp holding an encoded envelope produces exactly one
body write with defaulted transport status 200 and MIMEJSON content type. -/
theorem httpResponse_restEnvelope (env : RestRespStruct) :
    httpResponse (Response.restResp (some { NewRespRestData with data := encodeEnvelope env }))
      = [Effect.writeData 200 MIMEJSON (encodeEnvelope env)] := by
  simp [httpResponse, Response.Data, NewRespRestData, encodeEnvelope, MIMEJSON]

/-- httpResponse on RespRestStatusError, computed. -/
theorem httpResponse_respRestStatusError (statusCode : StatusCode) (msgs : List String) :
    httpResponse (RespRestStatusError statusCode msgs)
      = [Effect.writeData 200 MIMEJSON (encodeEnvelope (NewRestStatusError statusCode msgs))] := by
  rw [RespRestStatusError]
  exact httpResponse_restEnvelope _

/-- httpResponse on RespRestException, computed. -/
theorem httpResponse_respRestException (msgs : List String) :
    httpResponse (RespRestException msgs)
      = [Effect.writeData 200 MIMEJSON (encodeEnvelope (NewRestException msgs))] := by
  rw [RespRestException]
  exact httpResponse_restEnvelope _

/-- writtenBody distributes over concatenation of effect traces. -/
theorem writtenBody_append (a b : List Effect) :
    writtenBody (a ++ b) = writtenBody a ++ writtenBody b := by
  induction a with
  | nil => rfl
  | cons e rest ih => cases e <;> simp [writtenBody, ih]

/-- Cookie effects deliver no body bytes. -/
theorem writtenBody_cookieEffects (cookies : List ResponseCookie) :
    writtenBody (cookieEffects cookies) = [] := by
  induction cookies with
  | nil => rfl
  | cons c rest ih => simpa [cookieEffects, writtenBody] using ih

/-- Header effects deliver no body bytes. -/
theorem writtenBody_headerEffects (headers : List ResponseHeader) :
    writtenBody (headerEffects headers) = [] := by
  induction headers with
  | nil => rfl
  | cons h rest ih => simpa [headerEffects, writtenBody] using ih

/-- The body delivered by writing a structured response is exactly its
ResponseData body bytes. -/
theorem writtenBody_httpResponse_rest (rd : ResponseData) :
    writtenBody (httpResponse (Response.restResp (some rd))) = rd.data := by
  simp only [httpResponse, Response.Data, guarded_cookieEffects, guarded_headerEffects]
  rw [writtenBody_append, writtenBody_append, writtenBody_cookieEffects, writtenBody_headerEffects]
  cases hdata : rd.data with
  | nil => simp [writtenBody]
  | cons a l => simp [writtenBody]

/-- Rewriter call sequences without a commit trigger leave the underlying
writer untouched. -/
theorem applyOps_no_commit (ops : List RewriterOp) :
    ∀ r : ResponseStatusRewriter, (∀ op ∈ ops, op.isCommitTrigger = false) →
      (applyOps r ops).responseWriter = r.responseWriter := by
  induction ops with
  | nil => intro r _; rfl
  | cons op rest ih =>
    intro r h
    have hop := h op (List.mem_cons_self op rest)
    have hrest : ∀ o ∈ rest, o.isCommitTrigger = false :=
      fun o ho => h o (List.mem_cons_of_mem op ho)
    cases op with
    | writeHeader code =>
      simpa [applyOps, applyOp, ResponseStatusRewriter.WriteHeader] using
        ih (r.WriteHeader code) hrest
    | status => simpa [applyOps, applyOp] using ih r hrest
    | write payload => simp [RewriterOp.isCommitTrigger] at hop
    | writeHeaderNow => simp [RewriterOp.isCommitTrigger] at hop

/-- The fallback match of defaultHttpStatusCodeHandlerResponse, phrased
through Option.getD. -/
theorem defaultHttpStatusCodeHandlerResponse_eq (httpStatusCode : Int) :
    defaultHttpStatusCodeHandlerResponse httpStatusCode
      = RespRestStatusError
          ((lookupCode httpCodeWithStatus httpStatusCode).getD StatusCode.StatusCodeException) [] := by
  unfold defaultHttpStatusCodeHandlerResponse
  cases lookupCode httpCodeWithStatus httpStatusCode <;> rfl

/-- On an uncommitted writer buffering a non-200 status, the status handler
commits transport status 200 followed by the registry envelope body. -/
theorem httpStatusCodeHandler_forces_200 (w : EngineWriter) (s : Int)
    (hw : w.committed = false) (hs : s ≠ 200) :
    HttpStatusCodeHandler ⟨w, s⟩
      = ⟨⟨true, w.events ++ [WriterEvent.writeHeader 200,
            WriterEvent.write (encodeEnvelope (NewRestStatusError
              ((lookupCode httpCodeWithStatus s).getD StatusCode.StatusCodeException) []))]⟩, 200⟩ := by
  simp only [HttpStatusCodeHandler, ResponseStatusRewriter.Status]
  rw [if_pos hs, defaultHttpStatusCodeHandlerResponse_eq, httpResponse_respRestStatusError]
  simp [applyEffectsRW, applyEffectRW, ResponseStatusRewriter.WriteHeader,
    ResponseStatusRewriter.Write, ResponseStatusRewriter.Written,
    EngineWriter.writeHeader, EngineWriter.write, hw]

/- ------------------------------------------------------------------ -/
/- Claim theorems                                                     -/
/- ------------------------------------------------------------------ -/

/-- C1: a handler returning a non-nil error is promoted to a panic; the
recovery wrapper invokes the resolver on the recovered value, writes the
returned Response when it is non-nil and writes nothing when it is nil;
with the default resolver the client receives the exception envelope with
transport code 200. -/
theorem recoverHandler_resolver_contract (resp : Option Response) (err : GoError)
    (effs : List Effect) (v : PanicValue) (resolver : RecoverHandlerResponse) :
    (handlerInvoke false (HandlerOutcome.returns resp (some err))).2
        = some (PanicValue.goError err)
    ∧ RecoverHandler resolver (effs, some v)
        = effs ++ (match resolver v with
                   | some response => httpResponse response
                   | none => [])
    ∧ RecoverHandler defaultRecoverHandlerResponse (effs, some v)
        = effs ++ [Effect.writeData 200 MIMEJSON (encodeEnvelope (NewRestException []))] := by
  refine ⟨?_, ?_, ?_⟩
  · cases resp <;> rfl
  · cases hres : resolver v <;> simp [RecoverHandler, hres]
  · simp only [RecoverHandler, defaultRecoverHandlerResponse]
    rw [httpResponse_respRestException]

/-- C2: after the chain completes with an uncommitted writer buffering a
non-200 status, the bad-status handler commits transport status 200 and
writes the envelope carrying the registry domain status with generic
fallback; in particular, on an unmatched route with the default buffered
404, the client receives the NotFound envelope with transport code 200. -/
theorem httpStatusCodeHandler_rewrites_bad_status (w : EngineWriter) (s : Int)
    (hw : w.committed = false) (hs : s ≠ 200) :
    HttpStatusCodeHandler ⟨w, s⟩
      = ⟨⟨true, w.events ++ [WriterEvent.writeHeader 200,
            WriterEvent.write (encodeEnvelope (NewRestStatusError
              ((lookupCode httpCodeWithStatus s).getD StatusCode.StatusCodeException) []))]⟩, 200⟩
    ∧ HttpStatusCodeHandler (RewriteHttpStatusCodeHandler w)
      = ⟨⟨true, w.events ++ [WriterEvent.writeHeader 200,
            WriterEvent.write (encodeEnvelope (NewRestStatusError
              StatusCode.StatusCodeNotFound []))]⟩, 200⟩ := by
  refine ⟨httpStatusCodeHandler_forces_200 w s hw hs, ?_⟩
  have hl : (lookupCode httpCodeWithStatus 404).getD StatusCode.StatusCodeException
      = StatusCode.StatusCodeNotFound := by decide
  have h2 := httpStatusCodeHandler_forces_200 w 404 hw (by decide)
  rw [hl] at h2
  exact h2

/-- C2 witness: on a fresh writer with the default buffered 404, the result
is the committed 200 header followed by the NotFound envelope. -/
theorem httpStatusCodeHandler_rewrites_bad_status_witness :
    HttpStatusCodeHandler (RewriteHttpStatusCodeHandler ⟨false, []⟩)
      = ⟨⟨true, [WriterEvent.writeHeader 200,
            WriterEvent.write (encodeEnvelope (NewRestStatusError
              StatusCode.StatusCodeNotFound []))]⟩, 200⟩ := by
  simpa using (httpStatusCodeHandler_rewrites_bad_status ⟨false, []⟩ 503 rfl (by decide)).2

/-- C3: the rewriter buffers every status write in memory, starts from the
default buffered value 404, never touches the underlying writer before a
body write or an explicit commit, and its Status accessor returns the
buffered value without any state change. -/
theorem responseStatusRewriter_defers_commit (w : EngineWriter) (ops : List RewriterOp)
    (r : ResponseStatusRewriter) (code : Int)
    (h : ∀ op ∈ ops, op.isCommitTrigger = false) :
    (applyOps (RewriteHttpStatusCodeHandler w) ops).responseWriter = w
    ∧ (RewriteHttpStatusCodeHandler w).statusCode = 404
    ∧ (r.WriteHeader code).statusCode = code
    ∧ (r.WriteHeader code).responseWriter = r.responseWriter
    ∧ r.Status = r.statusCode
    ∧ (rewriteHandlerAfterNext r).responseWriter = r.responseWriter := by
  exact ⟨applyOps_no_commit ops (RewriteHttpStatusCodeHandler w) h, rfl, rfl, rfl, rfl, rfl⟩

/-- C3 witness: buffering two status writes and a Status read on a fresh
writer leaves the underlying writer untouched. -/
theorem responseStatusRewriter_defers_commit_witness :
    (applyOps (RewriteHttpStatusCodeHandler ⟨false, []⟩)
        [RewriterOp.writeHeader 418, RewriterOp.status, RewriterOp.writeHeader 503]).responseWriter
      = ⟨false, []⟩ :=
  (responseStatusRewriter_defers_commit ⟨false, []⟩
    [RewriterOp.writeHeader 418, RewriterOp.status, RewriterOp.writeHeader 503]
    ⟨⟨false, []⟩, 7⟩ 9 (by decide)).1

/-- C4: a raw-callback response runs its callback and ignores every
ResponseData field; any other response applies its ResponseData as cookies,
then headers, then the body, defaulting the content type to MIMEJSON and
the status code to 200 when unset. -/
theorem httpResponse_write_precedence (fn : GinFn) (rd1 rd2 : Option ResponseData)
    (rd : ResponseData) :
    httpResponse (Response.commonResp (some fn) rd1) = fn
    ∧ httpResponse (Response.commonResp (some fn) rd1)
        = httpResponse (Response.commonResp (some fn) rd2)
    ∧ httpResponse (Response.restResp (some rd))
        = cookieEffects rd.cookies ++ headerEffects rd.headers ++
            (if rd.data.length > 0 then
              [Effect.writeData (if rd.statusCode = 0 then 200 else rd.statusCode)
                (if rd.contentType = "" then MIMEJSON else rd.contentType) rd.data]
            else [])
    ∧ httpResponse (Response.commonResp none (some rd))
        = httpResponse (Response.restResp (some rd)) := by
  refine ⟨rfl, rfl, ?_, rfl⟩
  simp only [httpResponse, Response.Data, guarded_cookieEffects, guarded_headerEffects]

/-- C5: when every earlier middleware continues and one middleware returns
continue false with a non-nil Response, that Response is written, nothing
after it runs (the result does not depend on the remaining middlewares or
the handler), and the delivered body is exactly that Response body. -/
theorem middleware_short_circuit (ms rest : List MiddlewareOutcome) (m : MiddlewareOutcome)
    (response : Response) (handlerResult : List Effect × Option PanicValue)
    (hcont : ∀ p ∈ ms, p.continued = true)
    (hm : m.continued = false) (hr : m.response = some response) :
    runMiddlewares (ms ++ m :: rest) handlerResult = (httpResponse response, none)
    ∧ ∀ rd, response = Response.restResp (some rd) →
        writtenBody (runMiddlewares (ms ++ m :: rest) handlerResult).1 = rd.data := by
  have hrun : ∀ ms2 : List MiddlewareOutcome, (∀ p ∈ ms2, p.continued = true) →
      runMiddlewares (ms2 ++ m :: rest) handlerResult = (httpResponse response, none) := by
    intro ms2
    induction ms2 with
    | nil => intro _; simp [runMiddlewares, hm, hr]
    | cons p ps ih =>
      intro h2
      have hp : p.continued = true := h2 p (List.mem_cons_self p ps)
      simp only [List.cons_append, runMiddlewares, hp, if_true]
      exact ih fun q hq => h2 q (List.mem_cons_of_mem p hq)
  refine ⟨hrun ms hcont, ?_⟩
  intro rd hrd
  rw [hrun ms hcont, hrd]
  exact writtenBody_httpResponse_rest rd

/-- C5 witness: a single short-circuiting middleware with a structured
Response delivers exactly that Response via httpResponse. -/
theorem middleware_short_circuit_witness :
    runMiddlewares [⟨some (Response.restResp (some ⟨[1, 2, 3], "", 0, [], []⟩)), false⟩] ([], none)
      = (httpResponse (Response.restResp (some ⟨[1, 2, 3], "", 0, [], []⟩)), none) :=
  (middleware_short_circuit [] [] ⟨some (Response.restResp (some ⟨[1, 2, 3], "", 0, [], []⟩)), false⟩
    (Response.restResp (some ⟨[1, 2, 3], "", 0, [], []⟩)) ([], none)
    (by simp) rfl rfl).1

/-- C6: the Status Registry maps exactly 400, 401, 403, 404, 405, 415 and
413 to the stated domain statuses, and every other transport code resolves
to the generic exception status. -/
theorem status_registry_mapping :
    lookupCode httpCodeWithStatus 400 = some StatusCode.StatusCodeBadRequestParameters
    ∧ lookupCode httpCodeWithStatus 401 = some StatusCode.StatusCodeForbidden
    ∧ lookupCode httpCodeWithStatus 403 = some StatusCode.StatusCodeForbidden
    ∧ lookupCode httpCodeWithStatus 404 = some StatusCode.StatusCodeNotFound
    ∧ lookupCode httpCodeWithStatus 405 = some StatusCode.StatusCodeMethodNotAllowed
    ∧ lookupCode httpCodeWithStatus 415 = some StatusCode.StatusCodeMediaTypeNotAllowed
    ∧ lookupCode httpCodeWithStatus 413 = some StatusCode.StatusCodeUploadLimitExceeded
    ∧ ∀ code : Int, code ∉ ([400, 401, 403, 404, 405, 413, 415] : List Int) →
        defaultHttpStatusCodeHandlerResponse code
          = RespRestStatusError StatusCode.StatusCodeException [] := by
  refine ⟨by decide, by decide, by decide, by decide, by decide, by decide, by decide, ?_⟩
  intro code hcode
  simp only [List.mem_cons, List.not_mem_nil, or_false, not_or] at hcode
  obtain ⟨h1, h2, h3, h4, h5, h6, h7⟩ := hcode
  have hl : lookupCode httpCodeWithStatus code = none := by
    simp [lookupCode, httpCodeWithStatus, Ne.symm h1, Ne.symm h2, Ne.symm h3,
      Ne.symm h4, Ne.symm h5, Ne.symm h6, Ne.symm h7]
  simp [defaultHttpStatusCodeHandlerResponse, hl]

/-- C6 witness: the unmapped code 500 resolves to the generic exception
envelope. -/
theorem status_registry_mapping_witness :
    defaultHttpStatusCodeHandlerResponse 500
      = RespRestStatusError StatusCode.StatusCodeException [] :=
  status_registry_mapping.2.2.2.2.2.2.2 500 (by decide)

/-- C7 counterexample: a ResponseData with empty body, status code 418, one
header and one cookie produces only the cookie and header effects; no
effect carries the status code 418, so the status code is not applied. -/
theorem empty_body_status_not_applied :
    httpResponse (Response.restResp (some ⟨[], "", 418, [⟨"X-Test", "1"⟩],
        [⟨"sid", "1", 60, "/", "", false, true⟩]⟩))
      = [Effect.setCookie ⟨"sid", "1", 60, "/", "", false, true⟩,
         Effect.setHeader "X-Test" "1"]
    ∧ ¬ ∃ e ∈ httpResponse (Response.restResp (some ⟨[], "", 418, [⟨"X-Test", "1"⟩],
        [⟨"sid", "1", 60, "/", "", false, true⟩]⟩)),
        statusOf e = some 418 := by
  exact ⟨by decide, by decide⟩

/-- C7 amended: when the body bytes are empty, no body write occurs and the
headers and cookies are still applied, but the status code is not written
either: no produced effect carries any status code. -/
theorem empty_body_no_status_write (rd : ResponseData) (h : rd.data = []) :
    httpResponse (Response.restResp (some rd))
      = cookieEffects rd.cookies ++ headerEffects rd.headers
    ∧ writtenBody (httpResponse (Response.restResp (some rd))) = []
    ∧ ∀ e ∈ httpResponse (Response.restResp (some rd)), statusOf e = none := by
  have h1 : httpResponse (Response.restResp (some rd))
      = cookieEffects rd.cookies ++ headerEffects rd.headers := by
    simp [httpResponse, Response.Data, guarded_cookieEffects, guarded_headerEffects, h]
  refine ⟨h1, ?_, ?_⟩
  · rw [h1, writtenBody_append, writtenBody_cookieEffects, writtenBody_headerEffects]
    rfl
  · rw [h1]
    intro e he
    rcases List.mem_append.1 he with hc | hh
    · obtain ⟨c, _, rfl⟩ := List.mem_map.1 hc
      rfl
    · obtain ⟨hdr, _, rfl⟩ := List.mem_map.1 hh
      rfl

/-- C7 amended witness: a concrete empty-body ResponseData with a header
applies only the header effect. -/
theorem empty_body_no_status_write_witness :
    httpResponse (Response.restResp (some ⟨[], "text/plain", 201, [⟨"A", "b"⟩], []⟩))
      = cookieEffects [] ++ headerEffects [⟨"A", "b"⟩] :=
  (empty_body_no_status_write ⟨[], "text/plain", 201, [⟨"A", "b"⟩], []⟩ rfl).1

/-- C8: a handler returning nil Response and nil error yields a bare 200
status with empty delivered body and no content-type write, and the full
deferred-writer pipeline commits exactly one 200 header on the wire. -/
theorem handler_nil_nil_bare_200 :
    handlerInvoke false (HandlerOutcome.returns none none) = ([Effect.setStatus 200], none)
    ∧ writtenBody (handlerInvoke false (HandlerOutcome.returns none none)).1 = []
    ∧ (handlerInvoke false (HandlerOutcome.returns none none)).1.filterMap contentTypeOf = []
    ∧ (HttpStatusCodeHandler (applyEffectsRW (RewriteHttpStatusCodeHandler ⟨false, []⟩)
          (handlerInvoke false (HandlerOutcome.returns none none)).1)).WriteHeaderNow
        = ⟨⟨true, [WriterEvent.writeHeader 200]⟩, 200⟩ := by
  exact ⟨rfl, rfl, rfl, by decide⟩

/-- C9: when the buffered status equals 200 or is in the configured
ignore-list, the bad-status resolver passes the response through unchanged;
with 404 in the ignore list the default buffered 404 passes through and the
deferred commit delivers the raw transport 404 with no envelope. -/
theorem badHttpCodeResolver_ignore_passthrough (w : EngineWriter) (s : Int)
    (ignoreHttpCode : List Int) (h : s = 200 ∨ s ∈ ignoreHttpCode) :
    badHttpCodeResolver ignoreHttpCode ⟨w, s⟩ = ⟨w, s⟩
    ∧ badHttpCodeResolver (404 :: ignoreHttpCode) (RewriteHttpStatusCodeHandler w)
        = RewriteHttpStatusCodeHandler w
    ∧ (w.committed = false →
        ((badHttpCodeResolver (404 :: ignoreHttpCode)
            (RewriteHttpStatusCodeHandler w)).WriteHeaderNow).responseWriter.events
          = w.events ++ [WriterEvent.writeHeader 404]) := by
  have hpass : ∀ (ign : List Int) (r : ResponseStatusRewriter),
      (r.Status = 200 ∨ r.Status ∈ ign) → badHttpCodeResolver ign r = r := by
    intro ign r hr
    simp only [badHttpCodeResolver]
    rw [if_pos hr]
  have h404 : badHttpCodeResolver (404 :: ignoreHttpCode) (RewriteHttpStatusCodeHandler w)
      = RewriteHttpStatusCodeHandler w :=
    hpass (404 :: ignoreHttpCode) (RewriteHttpStatusCodeHandler w)
      (Or.inr (List.mem_cons_self 404 ignoreHttpCode))
  refine ⟨hpass ignoreHttpCode ⟨w, s⟩ h, h404, ?_⟩
  intro hw
  rw [h404]
  simp [RewriteHttpStatusCodeHandler, ResponseStatusRewriter.WriteHeaderNow,
    ResponseStatusRewriter.Written, EngineWriter.writeHeader, hw]

/-- C9 witness: buffered 404 with 404 in the ignore list passes through
unchanged. -/
theorem badHttpCodeResolver_ignore_passthrough_witness :
    badHttpCodeResolver [404] ⟨⟨false, []⟩, 404⟩ = ⟨⟨false, []⟩, 404⟩ :=
  (badHttpCodeResolver_ignore_passthrough ⟨false, []⟩ 404 [404] (Or.inr (by decide))).1

/-- C10: a redirect with no supplied status uses 301; the bad-status
warning condition is unsatisfiable for every integer, so every supplied
status code reaches the redirect unchanged with no warning emitted. -/
theorem respRedirect_passthrough (url : String) :
    httpResponse (RespRedirect url []) = [Effect.redirect 301 url]
    ∧ (∀ statusCode : Int, ∀ restCodes : List Int,
        httpResponse (RespRedirect url (statusCode :: restCodes))
          = [Effect.redirect statusCode url])
    ∧ ∀ statusCode : Int, ¬(statusCode < 300 ∧ statusCode > 308) := by
  refine ⟨rfl, ?_, ?_⟩
  · intro statusCode restCodes
    have h : ¬(statusCode < 300 ∧ statusCode > 308) := by omega
    simp [RespRedirect, httpResponse, respRedirectGinFn, h]
  · intro statusCode
    omega

/-- C10 witness: a supplied 307 passes through unchanged. -/
theorem respRedirect_passthrough_witness :
    httpResponse (RespRedirect "/next" [307]) = [Effect.redirect 307 "/next"] :=
  (respRedirect_passthrough "/next").2.1 307 []

end GinStarter
